import Mathlib

/-!
Shallow embedding of `projects/unit3/build-mcp-server/starter/server.py`,
a small MCP server exposing three tools:

* `analyze_file_changes` — runs the version-control tool three times
  (changed-file names, stat summary, optional full diff) and assembles a
  JSON report, truncating the diff at `max_diff_lines` lines;
* `get_pr_templates` — enumerates the template directory and returns a
  name-sorted catalog of template entries;
* `suggest_template` — matches a change-type label against the catalog
  using a fixed pattern dictionary, a generic fallback pass, and a
  key-based stable sort, and returns the best match.

JSON payloads are modelled as ordered key/value lists (`JObj`), mirroring
Python dict insertion order.  External effects (subprocess results, the
filesystem state of the template directory) are passed in explicitly as
data.  Python's stable list sort is modelled by `List.insertionSort`,
which is stable.  Case folding is modelled on ASCII.
-/

namespace PRAgent

/-! ### JSON values -/

inductive JVal where
  | null : JVal
  | str : String → JVal
  | num : Nat → JVal
  | bool : Bool → JVal
  | arr : List JVal → JVal
  | obj : List (String × JVal) → JVal
deriving Repr

abbrev JObj := List (String × JVal)

/-- Look a key up in a JSON object (first binding wins, as in a Python dict
rendered with distinct keys). -/
def getKey (o : JObj) (k : String) : Option JVal :=
  (o.find? (fun p => p.1 == k)).map (fun p => p.2)

def hasKey (o : JObj) (k : String) : Bool :=
  (getKey o k).isSome

/-- Field lookup inside a nested JSON object value. -/
def objGet (v : JVal) (k : String) : Option JVal :=
  match v with
  | .obj fields => getKey fields k
  | _ => none

/-! ### Python string primitives -/

/-- ASCII whitespace recognised by Python's `str.strip`. -/
def isPySpace (c : Char) : Bool :=
  c == ' ' || c == '\t' || c == '\n' || c == '\r' || c.toNat == 11 || c.toNat == 12

/-- Python `str.strip()` (ASCII whitespace). -/
def pyStrip (s : String) : String :=
  String.mk (((s.data.dropWhile isPySpace).reverse.dropWhile isPySpace).reverse)

/-- ASCII lower-casing of one character. -/
def asciiLower (c : Char) : Char :=
  if 65 ≤ c.toNat ∧ c.toNat ≤ 90 then Char.ofNat (c.toNat + 32) else c

/-- Python `str.lower()` (ASCII case folding). -/
def pyLower (s : String) : String :=
  String.mk (s.data.map asciiLower)

/-- Python `s.split('\n')` on the character list: every newline separates
two segments, so a trailing newline produces a trailing empty segment and
the empty string yields `[""]`. -/
def splitNlList : List Char → List String
  | [] => [""]
  | c :: rest =>
    if c = '\n' then "" :: splitNlList rest
    else
      match splitNlList rest with
      | [] => [String.mk [c]]
      | s :: ss => String.mk (c :: s.data) :: ss

/-- Python `s.split('\n')`. -/
def pySplitNl (s : String) : List String :=
  splitNlList s.data

/-- Python `'\n'.join(ss)`. -/
def joinNl : List String → String
  | [] => ""
  | [s] => s
  | s :: rest => s ++ "\n" ++ joinNl rest

/-- Contiguous-sublist check on character lists. -/
def isInfixList (pat : List Char) : List Char → Bool
  | [] => pat == []
  | c :: rest => pat.isPrefixOf (c :: rest) || isInfixList pat rest

/-- Python `pat in s` substring containment. -/
def pyIn (pat s : String) : Bool :=
  isInfixList pat.data s.data

/-! ### `analyze_file_changes` -/

/-- Result of one `subprocess.run` invocation. -/
structure ProcResult where
  returncode : Int
  stdout : String
  stderr : String
deriving Repr, DecidableEq

/-- The list `[f.strip() for f in files_result.stdout.split(chr(10)) if f.strip()]`. -/
def changedFilesOf (stdout : String) : List String :=
  (pySplitNl stdout).filterMap
    (fun f => if pyStrip f = "" then none else some (pyStrip f))

/-- The body of the `analyze_file_changes` tool after the workspace root has
been resolved: the three subprocess results are inputs. -/
def analyze_file_changes (base_branch : String) (include_diff : Bool)
    (max_diff_lines : Nat)
    (files_result stats_result diff_result : ProcResult) : JObj :=
  if files_result.returncode ≠ 0 then
    [("error", .str "Failed to get changed files"),
     ("details", .str (pyStrip files_result.stderr))]
  else
    let changed_files := changedFilesOf files_result.stdout
    let stats :=
      if stats_result.returncode = 0 then pyStrip stats_result.stdout
      else "Stats unavailable"
    let result : JObj :=
      [("changed_files", .arr (changed_files.map JVal.str)),
       ("file_count", .num changed_files.length),
       ("stats", .str stats),
       ("base_branch", .str base_branch)]
    if include_diff then
      if diff_result.returncode = 0 then
        let diff_lines := pySplitNl diff_result.stdout
        let total := diff_lines.length
        if total > max_diff_lines then
          result ++
            [("diff", .str (joinNl (diff_lines.take max_diff_lines))),
             ("diff_truncated", .bool true),
             ("total_diff_lines", .num total),
             ("truncation_message",
              .str ("Diff truncated to " ++ toString max_diff_lines ++
                      " lines (total: " ++ toString total ++ " lines)"))]
        else
          result ++
            [("diff", .str diff_result.stdout),
             ("diff_truncated", .bool false)]
      else
        result ++ [("diff_error", .str (pyStrip diff_result.stderr))]
    else
      result

/-! ### `get_pr_templates` -/

/-- Outcome of the `open`/`read` attempt on one file: the text read, or
the exception message raised. -/
inductive ReadResult where
  | ok (content : String) : ReadResult
  | error (msg : String) : ReadResult
deriving Repr, DecidableEq

/-- One directory entry as seen by `TEMPLATES_DIR.glob("*")`: its name,
whether `is_file()` holds, and the outcome of reading it. -/
structure FileEntry where
  name : String
  isFile : Bool
  content : ReadResult
deriving Repr, DecidableEq

/-- State of the configured templates path. -/
inductive DirState where
  | missing : DirState
  | notDir : DirState
  | dir (entries : List FileEntry) : DirState
deriving Repr, DecidableEq

/-- A catalog entry: the success variant `{name, path, content, size}` or
the read-failure variant `{name, path, error}`. -/
inductive TemplateEntry where
  | ok (name path content : String) (size : Nat) : TemplateEntry
  | err (name path error : String) : TemplateEntry
deriving Repr, DecidableEq

def TemplateEntry.name : TemplateEntry → String
  | .ok n _ _ _ => n
  | .err n _ _ => n

def TemplateEntry.path : TemplateEntry → String
  | .ok _ p _ _ => p
  | .err _ p _ => p

def TemplateEntry.toJVal : TemplateEntry → JVal
  | .ok n p c sz =>
    .obj [("name", .str n), ("path", .str p), ("content", .str c), ("size", .num sz)]
  | .err n p e =>
    .obj [("name", .str n), ("path", .str p), ("error", .str e)]

/-- Processing of one regular file: read succeeds or yields the error
variant; the path relative to the catalog root is the file name. -/
def readEntry (e : FileEntry) : TemplateEntry :=
  match e.content with
  | .ok c => .ok e.name e.name c c.length
  | .error msg => .err e.name e.name ("Failed to read file: " ++ msg)

/-- The catalog before sorting, in filesystem enumeration order. -/
def rawTemplates : List FileEntry → List TemplateEntry
  | [] => []
  | e :: rest =>
    if e.isFile then readEntry e :: rawTemplates rest else rawTemplates rest

/-- The ordering relation of `templates.sort(key=lambda x: x["name"])`. -/
def nameLe (a b : TemplateEntry) : Prop :=
  a.name ≤ b.name

instance : DecidableRel nameLe :=
  fun a b => inferInstanceAs (Decidable (a.name ≤ b.name))

/-- The catalog after the final name sort (Python's sort is stable, as is
`List.insertionSort`). -/
def sortedTemplates (entries : List FileEntry) : List TemplateEntry :=
  List.insertionSort nameLe (rawTemplates entries)

/-- Structured result of `get_pr_templates`. -/
inductive CatalogResult where
  | missing (templatesDir : String) : CatalogResult
  | pathError (templatesDir : String) : CatalogResult
  | ok (templates : List TemplateEntry) (templatesDir : String) : CatalogResult
deriving Repr, DecidableEq

def get_pr_templates (templatesDir : String) : DirState → CatalogResult
  | .missing => .missing templatesDir
  | .notDir => .pathError templatesDir
  | .dir entries => .ok (sortedTemplates entries) templatesDir

/-- The JSON payload `get_pr_templates` serialises. -/
def catalogPayload : CatalogResult → JObj
  | .missing d =>
    [("templates", .arr []),
     ("template_count", .num 0),
     ("message", .str ("Templates directory not found at " ++ d))]
  | .pathError d =>
    [("error", .str ("Templates path exists but is not a directory: " ++ d))]
  | .ok ts d =>
    [("templates", .arr (ts.map TemplateEntry.toJVal)),
     ("template_count", .num ts.length),
     ("templates_dir", .str d)]

def get_pr_templates_payload (templatesDir : String) (st : DirState) : JObj :=
  catalogPayload (get_pr_templates templatesDir st)

/-! ### `suggest_template` -/

/-- The fixed change-type → pattern dictionary, in insertion order. -/
def type_mappings : List (String × List String) :=
  [("bug", ["bug", "fix", "hotfix", "patch"]),
   ("feature", ["feature", "enhancement", "new"]),
   ("docs", ["docs", "documentation", "readme"]),
   ("refactor", ["refactor", "cleanup", "improvement"]),
   ("test", ["test", "testing", "spec"]),
   ("chore", ["chore", "maintenance", "update"]),
   ("breaking", ["breaking", "major"]),
   ("security", ["security", "vulnerability", "cve"])]

/-- The lookup `type_mappings.get(change_type_lower, [change_type_lower])`. -/
def patternsFor (change_type_lower : String) : List String :=
  match type_mappings.find? (fun p => p.1 == change_type_lower) with
  | some p => p.2
  | none => [change_type_lower]

/-- A template annotated with the reason it matched. -/
structure MatchCandidate where
  template : TemplateEntry
  match_reason : String
deriving Repr, DecidableEq

def MatchCandidate.toJVal (c : MatchCandidate) : JVal :=
  .obj [("name", .str c.template.name),
        ("path", .str c.template.path),
        ("match_reason", .str c.match_reason)]

def primaryReason (pattern change_type : String) : String :=
  "Template name contains \x27" ++ pattern ++
    "\x27 which matches change type \x27" ++ change_type ++ "\x27"

/-- Inner pattern loop with `break`: first matching pattern wins. -/
def tryPatterns (change_type : String) (t : TemplateEntry) :
    List String → Option MatchCandidate
  | [] => none
  | p :: ps =>
    if pyIn p (pyLower t.name) then some ⟨t, primaryReason p change_type⟩
    else tryPatterns change_type t ps

/-- Outer template loop of the primary pass, in catalog order. -/
def primaryPass (patterns : List String) (change_type : String) :
    List TemplateEntry → List MatchCandidate
  | [] => []
  | t :: rest =>
    match tryPatterns change_type t patterns with
    | some c => c :: primaryPass patterns change_type rest
    | none => primaryPass patterns change_type rest

def genericReason (change_type : String) : String :=
  "Generic template suitable for \x27" ++ change_type ++ "\x27 changes"

def genericNames : List String :=
  ["default", "general", "standard", "basic"]

/-- Fallback pass over generic template names, in catalog order. -/
def fallbackPass (change_type : String) : List TemplateEntry → List MatchCandidate
  | [] => []
  | t :: rest =>
    if genericNames.any (fun g => pyIn g (pyLower t.name)) then
      ⟨t, genericReason change_type⟩ :: fallbackPass change_type rest
    else fallbackPass change_type rest

/-- The matching list fed to the ranking sort. -/
def matchingFor (change_type : String) (templates : List TemplateEntry) :
    List MatchCandidate :=
  let primary := primaryPass (patternsFor (pyLower change_type)) change_type templates
  if primary.isEmpty then fallbackPass change_type templates else primary

/-- Python sort key `(change_type_lower not in name.lower(), name)`. -/
def sortKey (change_type_lower : String) (c : MatchCandidate) : Bool × String :=
  (!(pyIn change_type_lower (pyLower c.template.name)), c.template.name)

/-- Ascending comparison of Python `(bool, str)` key tuples
(`False < True`, ties compared on the string). -/
def keyLe (a b : Bool × String) : Prop :=
  (a.1 = false ∧ b.1 = true) ∨ (a.1 = b.1 ∧ a.2 ≤ b.2)

instance : DecidableRel keyLe :=
  fun a b =>
    inferInstanceAs (Decidable ((a.1 = false ∧ b.1 = true) ∨ (a.1 = b.1 ∧ a.2 ≤ b.2)))

def rankLe (change_type_lower : String) (a b : MatchCandidate) : Prop :=
  keyLe (sortKey change_type_lower a) (sortKey change_type_lower b)

instance (ctl : String) : DecidableRel (rankLe ctl) :=
  fun a b => inferInstanceAs (Decidable (keyLe (sortKey ctl a) (sortKey ctl b)))

/-- The empty-catalog payload (`suggestion: null`). -/
def noTemplatesPayload (templatesDir : String) : JObj :=
  [("suggestion", JVal.null),
   ("message", .str "No templates available to suggest"),
   ("templates_dir", .str templatesDir)]

/-- The payload built from the non-empty ranked matching list. -/
def rankedPayload (changes_summary change_type : String) (total : Nat) :
    List MatchCandidate → JObj
  | [] => []
  | best :: rest =>
    [("suggested_template", best.toJVal),
     ("change_type", .str change_type),
     ("changes_summary", .str changes_summary),
     ("all_matches", .arr ((best :: rest).map MatchCandidate.toJVal)),
     ("total_available_templates", .num total)]

/-- The payload when both passes found nothing and the catalog is
non-empty: suggest the first template. -/
def noMatchPayload (changes_summary change_type : String) (total : Nat)
    (fallback : TemplateEntry) : JObj :=
  [("suggested_template",
    .obj [("name", .str fallback.name),
          ("path", .str fallback.path),
          ("match_reason",
           .str ("No specific template found for \x27" ++ change_type ++
                   "\x27, using fallback template"))]),
   ("change_type", .str change_type),
   ("changes_summary", .str changes_summary),
   ("all_matches", .arr []),
   ("total_available_templates", .num total),
   ("note",
    .str ("Consider creating a template specifically for \x27" ++ change_type ++
            "\x27 changes"))]

/-- The `suggest_template` tool, consuming the structured result of its
internal `get_pr_templates` call. -/
def suggest_template (changes_summary change_type : String) : CatalogResult → JObj
  | .pathError d =>
    [("error", .str "Could not load templates"),
     ("details", .str ("Templates path exists but is not a directory: " ++ d))]
  | .missing d => noTemplatesPayload d
  | .ok templates d =>
    if templates.isEmpty then noTemplatesPayload d
    else
      match matchingFor change_type templates with
      | [] =>
        match templates with
        | [] => []
        | t0 :: _ => noMatchPayload changes_summary change_type templates.length t0
      | m :: ms =>
        rankedPayload changes_summary change_type templates.length
          (List.insertionSort (rankLe (pyLower change_type)) (m :: ms))

/-! ### Claim C1 -/

/-- C1: with `include_diff` true and both the file-list and diff invocations
succeeding, if the diff split on newlines has strictly more than
`max_diff_lines` lines then the report carries exactly the first
`max_diff_lines` lines joined by newline, `diff_truncated = true` and
`total_diff_lines` equal to the original line count; if the line count is at
most `max_diff_lines` the report carries the diff text unmodified with
`diff_truncated = false` (and no `total_diff_lines` field). -/
theorem C1_diff_truncation (bb : String) (maxl : Nat)
    (fr sr dr : ProcResult) (hf : fr.returncode = 0) (hd : dr.returncode = 0) :
    ((pySplitNl dr.stdout).length > maxl →
      getKey (analyze_file_changes bb true maxl fr sr dr) "diff" =
        some (.str (joinNl ((pySplitNl dr.stdout).take maxl))) ∧
      getKey (analyze_file_changes bb true maxl fr sr dr) "diff_truncated" =
        some (.bool true) ∧
      getKey (analyze_file_changes bb true maxl fr sr dr) "total_diff_lines" =
        some (.num (pySplitNl dr.stdout).length)) ∧
    ((pySplitNl dr.stdout).length ≤ maxl →
      getKey (analyze_file_changes bb true maxl fr sr dr) "diff" =
        some (.str dr.stdout) ∧
      getKey (analyze_file_changes bb true maxl fr sr dr) "diff_truncated" =
        some (.bool false) ∧
      getKey (analyze_file_changes bb true maxl fr sr dr) "total_diff_lines" =
        none) := by
  unfold analyze_file_changes
  rw [if_neg (not_not_intro hf), if_pos rfl, if_pos hd]
  constructor
  · intro hgt
    rw [if_pos hgt]
    exact ⟨rfl, rfl, rfl⟩
  · intro hle
    rw [if_neg (Nat.not_lt.mpr hle)]
    exact ⟨rfl, rfl, rfl⟩

/-- Witness for C1 at concrete inputs: a three-line diff against
`max_diff_lines = 2` is truncated to its first two lines, and against
`max_diff_lines = 3` is returned unmodified. -/
theorem C1_diff_truncation_witness :
    (getKey (analyze_file_changes "main" true 2
        ⟨0, "f1\n", ""⟩ ⟨0, "", ""⟩ ⟨0, "l1\nl2\nl3", ""⟩) "diff" =
      some (.str "l1\nl2") ∧
     getKey (analyze_file_changes "main" true 2
        ⟨0, "f1\n", ""⟩ ⟨0, "", ""⟩ ⟨0, "l1\nl2\nl3", ""⟩) "diff_truncated" =
      some (.bool true) ∧
     getKey (analyze_file_changes "main" true 2
        ⟨0, "f1\n", ""⟩ ⟨0, "", ""⟩ ⟨0, "l1\nl2\nl3", ""⟩) "total_diff_lines" =
      some (.num 3)) ∧
    (getKey (analyze_file_changes "main" true 3
        ⟨0, "f1\n", ""⟩ ⟨0, "", ""⟩ ⟨0, "l1\nl2\nl3", ""⟩) "diff" =
      some (.str "l1\nl2\nl3") ∧
     getKey (analyze_file_changes "main" true 3
        ⟨0, "f1\n", ""⟩ ⟨0, "", ""⟩ ⟨0, "l1\nl2\nl3", ""⟩) "diff_truncated" =
      some (.bool false) ∧
     getKey (analyze_file_changes "main" true 3
        ⟨0, "f1\n", ""⟩ ⟨0, "", ""⟩ ⟨0, "l1\nl2\nl3", ""⟩) "total_diff_lines" =
      none) := by
  constructor
  · exact (C1_diff_truncation "main" 2 ⟨0, "f1\n", ""⟩ ⟨0, "", ""⟩
      ⟨0, "l1\nl2\nl3", ""⟩ rfl rfl).1 (by decide)
  · exact (C1_diff_truncation "main" 3 ⟨0, "f1\n", ""⟩ ⟨0, "", ""⟩
      ⟨0, "l1\nl2\nl3", ""⟩ rfl rfl).2 (by decide)

/-! ### Claim C2 -/

/-- C2 counterexample: against an empty catalog, `suggest_template` returns
a non-error payload whose suggestion is null, but that payload carries no
`total_available_templates` key at all — refuting the claim that it
contains `total_available_templates: 0`. -/
theorem C2_counterexample :
    hasKey (suggest_template "summary" "bug" (.ok [] "/templates"))
      "total_available_templates" = false ∧
    getKey (suggest_template "summary" "bug" (.ok [] "/templates")) "suggestion" =
      some .null ∧
    hasKey (suggest_template "summary" "bug" (.ok [] "/templates")) "error" = false :=
  ⟨rfl, rfl, rfl⟩

/-- C2 (amended): for every call of `suggest_template` against an empty
template catalog (empty directory or missing directory), the result is the
non-error payload with a null suggestion and an explanatory message; it
carries no `total_available_templates` field. -/
theorem C2_empty_catalog (cs ct d : String) :
    suggest_template cs ct (.ok [] d) = noTemplatesPayload d ∧
    suggest_template cs ct (.missing d) = noTemplatesPayload d ∧
    getKey (noTemplatesPayload d) "suggestion" = some .null ∧
    getKey (noTemplatesPayload d) "message" =
      some (.str "No templates available to suggest") ∧
    getKey (noTemplatesPayload d) "templates_dir" = some (.str d) ∧
    getKey (noTemplatesPayload d) "error" = none ∧
    getKey (noTemplatesPayload d) "total_available_templates" = none :=
  ⟨rfl, rfl, rfl, rfl, rfl, rfl, rfl⟩

/-! ### Claim C9 -/

/-- C9 counterexample: on tool output `"a \nb"` the produced list is
`["a", "b"]` — each retained line is whitespace-stripped — while the claim
(split, drop blank lines, keep lines unchanged) predicts `["a ", "b"]`. -/
theorem C9_counterexample :
    changedFilesOf "a \nb" = ["a", "b"] ∧
    (pySplitNl "a \nb").filter (fun f => !(pyStrip f == "")) = ["a ", "b"] ∧
    changedFilesOf "a \nb" ≠
      (pySplitNl "a \nb").filter (fun f => !(pyStrip f == "")) := by
  refine ⟨by decide, by decide, by decide⟩

/-- C9 (amended): the `changed_files` list is the tool output split on
newlines with empty and whitespace-only lines removed and each retained
line stripped of leading/trailing whitespace, first-seen order preserved;
it never contains an empty-string entry, and `file_count` equals its
length. -/
theorem C9_changed_files (bb : String) (incl : Bool) (maxl : Nat)
    (fr sr dr : ProcResult) (hf : fr.returncode = 0) :
    getKey (analyze_file_changes bb incl maxl fr sr dr) "changed_files" =
      some (.arr ((changedFilesOf fr.stdout).map JVal.str)) ∧
    getKey (analyze_file_changes bb incl maxl fr sr dr) "file_count" =
      some (.num (changedFilesOf fr.stdout).length) ∧
    changedFilesOf fr.stdout =
      (pySplitNl fr.stdout).filterMap
        (fun f => if pyStrip f = "" then none else some (pyStrip f)) ∧
    "" ∉ changedFilesOf fr.stdout := by
  refine ⟨?_, ?_, rfl, ?_⟩
  · unfold analyze_file_changes
    rw [if_neg (not_not_intro hf)]
    cases incl with
    | false => rfl
    | true =>
      by_cases hdr : dr.returncode = 0
      · rw [if_pos rfl, if_pos hdr]
        by_cases hlen : (pySplitNl dr.stdout).length > maxl
        · rw [if_pos hlen]; rfl
        · rw [if_neg hlen]; rfl
      · rw [if_pos rfl, if_neg hdr]; rfl
  · unfold analyze_file_changes
    rw [if_neg (not_not_intro hf)]
    cases incl with
    | false => rfl
    | true =>
      by_cases hdr : dr.returncode = 0
      · rw [if_pos rfl, if_pos hdr]
        by_cases hlen : (pySplitNl dr.stdout).length > maxl
        · rw [if_pos hlen]; rfl
        · rw [if_neg hlen]; rfl
      · rw [if_pos rfl, if_neg hdr]; rfl
  · intro hmem
    obtain ⟨f, -, hif⟩ := List.mem_filterMap.mp hmem
    by_cases hfe : pyStrip f = ""
    · rw [if_pos hfe] at hif
      exact Option.noConfusion hif
    · rw [if_neg hfe] at hif
      exact hfe (Option.some.inj hif)

/-- Witness for C9 (amended) at concrete inputs: trailing blank lines and
interior whitespace-only lines are dropped, lines are stripped. -/
theorem C9_changed_files_witness :
    getKey (analyze_file_changes "main" true 500
        ⟨0, "src/a.py \n\n  \nsrc/b.py\n", ""⟩ ⟨0, "", ""⟩ ⟨0, "", ""⟩)
      "changed_files" =
      some (.arr [.str "src/a.py", .str "src/b.py"]) ∧
    getKey (analyze_file_changes "main" true 500
        ⟨0, "src/a.py \n\n  \nsrc/b.py\n", ""⟩ ⟨0, "", ""⟩ ⟨0, "", ""⟩)
      "file_count" = some (.num 2) ∧
    "" ∉ changedFilesOf "src/a.py \n\n  \nsrc/b.py\n" := by
  have h := C9_changed_files "main" true 500
    ⟨0, "src/a.py \n\n  \nsrc/b.py\n", ""⟩ ⟨0, "", ""⟩ ⟨0, "", ""⟩ rfl
  exact ⟨h.1, h.2.1, h.2.2.2⟩

/-! ### Claim C8 -/

/-- C8: a non-zero exit of the changed-file-list invocation is fatal and
returns an error payload with the tool's (stripped) stderr; a non-zero exit
of the stats invocation degrades to the placeholder `"Stats unavailable"`;
a non-zero exit of the diff invocation omits the diff and attaches a
`diff_error` field; in the last two cases the report is still successful
(no `error` key). -/
theorem C8_error_paths (bb : String) (incl : Bool) (maxl : Nat)
    (fr sr dr : ProcResult) :
    (fr.returncode ≠ 0 →
      analyze_file_changes bb incl maxl fr sr dr =
        [("error", .str "Failed to get changed files"),
         ("details", .str (pyStrip fr.stderr))]) ∧
    (fr.returncode = 0 → sr.returncode ≠ 0 →
      getKey (analyze_file_changes bb incl maxl fr sr dr) "stats" =
        some (.str "Stats unavailable") ∧
      getKey (analyze_file_changes bb incl maxl fr sr dr) "error" = none) ∧
    (fr.returncode = 0 → dr.returncode ≠ 0 →
      getKey (analyze_file_changes bb true maxl fr sr dr) "diff" = none ∧
      getKey (analyze_file_changes bb true maxl fr sr dr) "diff_error" =
        some (.str (pyStrip dr.stderr)) ∧
      getKey (analyze_file_changes bb true maxl fr sr dr) "error" = none) := by
  refine ⟨?_, ?_, ?_⟩
  · intro hf
    unfold analyze_file_changes
    rw [if_pos hf]
  · intro hf hs
    unfold analyze_file_changes
    rw [if_neg (not_not_intro hf), if_neg hs]
    cases incl with
    | false => exact ⟨rfl, rfl⟩
    | true =>
      by_cases hdr : dr.returncode = 0
      · rw [if_pos rfl, if_pos hdr]
        by_cases hlen : (pySplitNl dr.stdout).length > maxl
        · rw [if_pos hlen]; exact ⟨rfl, rfl⟩
        · rw [if_neg hlen]; exact ⟨rfl, rfl⟩
      · rw [if_pos rfl, if_neg hdr]; exact ⟨rfl, rfl⟩
  · intro hf hd
    unfold analyze_file_changes
    rw [if_neg (not_not_intro hf), if_pos rfl, if_neg hd]
    exact ⟨rfl, rfl, rfl⟩

/-- Witness for C8 at concrete inputs: a failing file-list call aborts with
the error payload; a failing stats call degrades to the placeholder; a
failing diff call yields `diff_error` and no `diff`, with no `error` key. -/
theorem C8_error_paths_witness :
    analyze_file_changes "main" true 5 ⟨1, "", " boom \n"⟩ ⟨0, "", ""⟩ ⟨0, "", ""⟩ =
      [("error", .str "Failed to get changed files"), ("details", .str "boom")] ∧
    getKey (analyze_file_changes "main" true 5 ⟨0, "a", ""⟩ ⟨2, "raw", ""⟩ ⟨0, "", ""⟩)
      "stats" = some (.str "Stats unavailable") ∧
    getKey (analyze_file_changes "main" true 5 ⟨0, "a", ""⟩ ⟨0, "", ""⟩ ⟨3, "", "bad"⟩)
      "diff" = none ∧
    getKey (analyze_file_changes "main" true 5 ⟨0, "a", ""⟩ ⟨0, "", ""⟩ ⟨3, "", "bad"⟩)
      "diff_error" = some (.str "bad") ∧
    getKey (analyze_file_changes "main" true 5 ⟨0, "a", ""⟩ ⟨0, "", ""⟩ ⟨3, "", "bad"⟩)
      "error" = none := by
  refine ⟨?_, ?_, ?_, ?_, ?_⟩
  · exact (C8_error_paths "main" true 5 ⟨1, "", " boom \n"⟩ ⟨0, "", ""⟩ ⟨0, "", ""⟩).1
      (by decide)
  · exact ((C8_error_paths "main" true 5 ⟨0, "a", ""⟩ ⟨2, "raw", ""⟩ ⟨0, "", ""⟩).2.1
      rfl (by decide)).1
  · exact ((C8_error_paths "main" true 5 ⟨0, "a", ""⟩ ⟨0, "", ""⟩ ⟨3, "", "bad"⟩).2.2
      rfl (by decide)).1
  · exact ((C8_error_paths "main" true 5 ⟨0, "a", ""⟩ ⟨0, "", ""⟩ ⟨3, "", "bad"⟩).2.2
      rfl (by decide)).2.1
  · exact ((C8_error_paths "main" true 5 ⟨0, "a", ""⟩ ⟨0, "", ""⟩ ⟨3, "", "bad"⟩).2.2
      rfl (by decide)).2.2

/-! ### Claim C6 -/

/-- Every enumerated regular file with `isFile` contributes its processed
entry to the pre-sort catalog. -/
theorem mem_rawTemplates {e : FileEntry} {entries : List FileEntry}
    (he : e ∈ entries) (hf : e.isFile = true) :
    readEntry e ∈ rawTemplates entries := by
  induction entries with
  | nil => cases he
  | cons a rest ih =>
    rcases List.mem_cons.mp he with h | h
    · subst h
      simp only [rawTemplates, if_pos hf]
      exact List.mem_cons_self _ _
    · simp only [rawTemplates]
      by_cases ha : a.isFile = true
      · rw [if_pos ha]
        exact List.mem_cons_of_mem _ (ih h)
      · rw [if_neg ha]
        exact ih h

/-- The pre-sort catalog is exactly the processed image of the regular
files, in enumeration order. -/
theorem rawTemplates_eq (entries : List FileEntry) :
    rawTemplates entries = (entries.filter (fun e => e.isFile)).map readEntry := by
  induction entries with
  | nil => rfl
  | cons e rest ih =>
    by_cases h : e.isFile = true
    · simp only [rawTemplates, if_pos h, List.filter_cons_of_pos h, List.map_cons, ih]
    · simp only [rawTemplates, if_neg h,
        List.filter_cons_of_neg (by simpa using h), ih]

/-- C6: a missing directory yields the empty catalog with a message and no
error; a path that is not a directory yields a hard error; a file whose
read fails is replaced by the error variant while every other regular file
is still enumerated. -/
theorem C6_catalog_error_handling (d : String) (entries : List FileEntry) :
    get_pr_templates_payload d .missing =
      [("templates", .arr []), ("template_count", .num 0),
       ("message", .str ("Templates directory not found at " ++ d))] ∧
    getKey (get_pr_templates_payload d .missing) "error" = none ∧
    get_pr_templates_payload d .notDir =
      [("error", .str ("Templates path exists but is not a directory: " ++ d))] ∧
    (∀ e ∈ entries, e.isFile = true → ∀ msg, e.content = .error msg →
      TemplateEntry.err e.name e.name ("Failed to read file: " ++ msg) ∈
        sortedTemplates entries) ∧
    (sortedTemplates entries).length =
      (entries.filter (fun e => e.isFile)).length := by
  refine ⟨rfl, rfl, rfl, ?_, ?_⟩
  · intro e he hf msg hc
    have hmem : readEntry e ∈ rawTemplates entries := mem_rawTemplates he hf
    have hre : readEntry e =
        TemplateEntry.err e.name e.name ("Failed to read file: " ++ msg) := by
      simp only [readEntry, hc]
    rw [← hre]
    exact (List.perm_insertionSort nameLe (rawTemplates entries)).mem_iff.mpr hmem
  · rw [sortedTemplates, List.length_insertionSort, rawTemplates_eq, List.length_map]

/-- Witness for C6 at a concrete directory: the unreadable `bad.md` is
enumerated as its error variant next to the readable `good.md`, and the
catalog has one entry per regular file. -/
theorem C6_catalog_error_handling_witness :
    TemplateEntry.err "bad.md" "bad.md" "Failed to read file: boom" ∈
      sortedTemplates
        [⟨"good.md", true, .ok "hello"⟩, ⟨"bad.md", true, .error "boom"⟩] ∧
    (sortedTemplates
        [⟨"good.md", true, .ok "hello"⟩, ⟨"bad.md", true, .error "boom"⟩]).length =
      (([⟨"good.md", true, .ok "hello"⟩,
         ⟨"bad.md", true, .error "boom"⟩] : List FileEntry).filter
          (fun e => e.isFile)).length := by
  have h := C6_catalog_error_handling "/t"
    [⟨"good.md", true, .ok "hello"⟩, ⟨"bad.md", true, .error "boom"⟩]
  exact ⟨h.2.2.2.1 ⟨"bad.md", true, .error "boom"⟩ (by decide) rfl "boom" rfl, h.2.2.2.2⟩

/-! ### Claim C3 -/

/-- The change-type → pattern dictionary exactly as the specification words
it (spec-side definition, compared with the source-side `patternsFor`). -/
def claimPatterns (ctl : String) : List String :=
  if ctl = "bug" then ["bug", "fix", "hotfix", "patch"]
  else if ctl = "feature" then ["feature", "enhancement", "new"]
  else if ctl = "docs" then ["docs", "documentation", "readme"]
  else if ctl = "refactor" then ["refactor", "cleanup", "improvement"]
  else if ctl = "test" then ["test", "testing", "spec"]
  else if ctl = "chore" then ["chore", "maintenance", "update"]
  else if ctl = "breaking" then ["breaking", "major"]
  else if ctl = "security" then ["security", "vulnerability", "cve"]
  else [ctl]

theorem patternsFor_eq_claim (ctl : String) : patternsFor ctl = claimPatterns ctl := by
  by_cases h1 : "bug" = ctl
  · subst h1; rfl
  by_cases h2 : "feature" = ctl
  · subst h2; rfl
  by_cases h3 : "docs" = ctl
  · subst h3; rfl
  by_cases h4 : "refactor" = ctl
  · subst h4; rfl
  by_cases h5 : "test" = ctl
  · subst h5; rfl
  by_cases h6 : "chore" = ctl
  · subst h6; rfl
  by_cases h7 : "breaking" = ctl
  · subst h7; rfl
  by_cases h8 : "security" = ctl
  · subst h8; rfl
  have f1 : (("bug" : String) == ctl) = false := beq_eq_false_iff_ne.mpr h1
  have f2 : (("feature" : String) == ctl) = false := beq_eq_false_iff_ne.mpr h2
  have f3 : (("docs" : String) == ctl) = false := beq_eq_false_iff_ne.mpr h3
  have f4 : (("refactor" : String) == ctl) = false := beq_eq_false_iff_ne.mpr h4
  have f5 : (("test" : String) == ctl) = false := beq_eq_false_iff_ne.mpr h5
  have f6 : (("chore" : String) == ctl) = false := beq_eq_false_iff_ne.mpr h6
  have f7 : (("breaking" : String) == ctl) = false := beq_eq_false_iff_ne.mpr h7
  have f8 : (("security" : String) == ctl) = false := beq_eq_false_iff_ne.mpr h8
  have hfind : type_mappings.find? (fun p => p.1 == ctl) = none := by
    simp only [type_mappings, List.find?, f1, f2, f3, f4, f5, f6, f7, f8]
  rw [patternsFor, hfind, claimPatterns,
    if_neg (fun h => h1 h.symm), if_neg (fun h => h2 h.symm),
    if_neg (fun h => h3 h.symm), if_neg (fun h => h4 h.symm),
    if_neg (fun h => h5 h.symm), if_neg (fun h => h6 h.symm),
    if_neg (fun h => h7 h.symm), if_neg (fun h => h8 h.symm)]

/-- The inner pattern loop returns the first matching pattern's candidate. -/
theorem tryPatterns_eq_find (ct : String) (t : TemplateEntry) (ps : List String) :
    tryPatterns ct t ps =
      (ps.find? (fun p => pyIn p (pyLower t.name))).map
        (fun p => ⟨t, primaryReason p ct⟩) := by
  induction ps with
  | nil => rfl
  | cons p ps ih =>
    by_cases h : pyIn p (pyLower t.name) = true
    · simp only [tryPatterns, List.find?, h, Option.map_some]
      exact if_pos trivial
    · have hfalse : pyIn p (pyLower t.name) = false := by
        simpa using h
      simp only [tryPatterns, List.find?, hfalse, ih]
      exact if_neg Bool.false_ne_true

/-- The primary pass includes, per catalog entry in order, at most one
candidate: the one for the first matching pattern. -/
theorem primaryPass_eq_filterMap (pats : List String) (ct : String)
    (catalog : List TemplateEntry) :
    primaryPass pats ct catalog =
      catalog.filterMap (fun t =>
        (pats.find? (fun p => pyIn p (pyLower t.name))).map
          (fun p => ⟨t, primaryReason p ct⟩)) := by
  induction catalog with
  | nil => rfl
  | cons t rest ih =>
    simp only [primaryPass, tryPatterns_eq_find, List.filterMap_cons]
    cases (pats.find? (fun p => pyIn p (pyLower t.name))).map
        (fun p => (⟨t, primaryReason p ct⟩ : MatchCandidate)) with
    | none => exact ih
    | some c => rw [ih]

/-- C3: the primary pass uses the fixed dictionary (falling back to the
singleton of the lower-cased change type), tests patterns in the fixed
order on each lower-cased template name in catalog order, and includes each
template at most once, annotated with the first matching pattern's reason
string. -/
theorem C3_primary_pass (ct : String) (catalog : List TemplateEntry) :
    patternsFor (pyLower ct) = claimPatterns (pyLower ct) ∧
    primaryPass (patternsFor (pyLower ct)) ct catalog =
      catalog.filterMap (fun t =>
        ((patternsFor (pyLower ct)).find? (fun p => pyIn p (pyLower t.name))).map
          (fun p => ⟨t, primaryReason p ct⟩)) ∧
    (∀ p, primaryReason p ct =
      "Template name contains \x27" ++ p ++
        "\x27 which matches change type \x27" ++ ct ++ "\x27") :=
  ⟨patternsFor_eq_claim _, primaryPass_eq_filterMap _ _ _, fun _ => rfl⟩

/-! ### Claim C5 -/

/-- The fallback pass is the filter of the catalog, in order, on generic
names, each annotated with the generic reason. -/
theorem fallbackPass_eq_filterMap (ct : String) (catalog : List TemplateEntry) :
    fallbackPass ct catalog =
      catalog.filterMap (fun t =>
        if genericNames.any (fun g => pyIn g (pyLower t.name)) then
          some ⟨t, genericReason ct⟩
        else none) := by
  induction catalog with
  | nil => rfl
  | cons t rest ih =>
    by_cases h : genericNames.any (fun g => pyIn g (pyLower t.name)) = true
    · simp only [fallbackPass, if_pos h, List.filterMap_cons, ih]
    · simp only [fallbackPass, if_neg h, List.filterMap_cons, ih]

/-- When both passes are empty and the catalog is not, the tool suggests
the first catalog entry with an empty match list and an advisory note. -/
theorem suggest_eq_noMatch (cs ct d : String) (t0 : TemplateEntry)
    (ts : List TemplateEntry)
    (hm : matchingFor ct (t0 :: ts) = []) :
    suggest_template cs ct (.ok (t0 :: ts) d) =
      noMatchPayload cs ct (t0 :: ts).length t0 := by
  simp only [suggest_template, hm]
  rfl

/-- C5: if the primary pass yields zero matches the fallback pass includes
exactly the templates whose lower-cased name contains one of
`{default, general, standard, basic}`, in catalog order, with the fixed
generic reason; if that pass is also empty while the catalog is non-empty,
the suggestion is the first catalog entry, `all_matches` is empty, and the
payload carries the authoring note. -/
theorem C5_fallback (cs ct d : String) (templates : List TemplateEntry)
    (hp : primaryPass (patternsFor (pyLower ct)) ct templates = []) :
    matchingFor ct templates = fallbackPass ct templates ∧
    fallbackPass ct templates =
      templates.filterMap (fun t =>
        if genericNames.any (fun g => pyIn g (pyLower t.name)) then
          some ⟨t, genericReason ct⟩
        else none) ∧
    genericNames = ["default", "general", "standard", "basic"] ∧
    (∀ p, genericReason p =
      "Generic template suitable for \x27" ++ p ++ "\x27 changes") ∧
    (∀ t0 ts, templates = t0 :: ts → fallbackPass ct templates = [] →
      suggest_template cs ct (.ok templates d) =
        noMatchPayload cs ct templates.length t0 ∧
      getKey (noMatchPayload cs ct templates.length t0) "suggested_template" =
        some (.obj
          [("name", .str t0.name), ("path", .str t0.path),
           ("match_reason",
            .str ("No specific template found for \x27" ++ ct ++
                    "\x27, using fallback template"))]) ∧
      getKey (noMatchPayload cs ct templates.length t0) "all_matches" =
        some (.arr []) ∧
      getKey (noMatchPayload cs ct templates.length t0) "note" =
        some (.str ("Consider creating a template specifically for \x27" ++ ct ++
                      "\x27 changes"))) := by
  have hmf : matchingFor ct templates = fallbackPass ct templates := by
    simp only [matchingFor, hp, List.isEmpty_nil]
    exact if_pos trivial
  refine ⟨hmf, fallbackPass_eq_filterMap _ _, rfl, fun _ => rfl, ?_⟩
  intro t0 ts ht hfb
  subst ht
  have hm : matchingFor ct (t0 :: ts) = [] := hmf.trans hfb
  exact ⟨suggest_eq_noMatch cs ct d t0 ts hm, rfl, rfl, rfl⟩

/-- Witness for C5 at concrete inputs: change type `"zzz"` matches nothing
in a catalog `[a.md]`, so the first template is suggested with an empty
match list; and the generic fallback fires on `default.md`. -/
theorem C5_fallback_witness :
    suggest_template "s" "zzz" (.ok [.ok "a.md" "a.md" "x" 1] "/t") =
      noMatchPayload "s" "zzz" 1 (.ok "a.md" "a.md" "x" 1) ∧
    fallbackPass "zzz" [.ok "default.md" "default.md" "x" 1] =
      [⟨.ok "default.md" "default.md" "x" 1, genericReason "zzz"⟩] := by
  constructor
  · exact ((C5_fallback "s" "zzz" "/t" [.ok "a.md" "a.md" "x" 1] (by decide)).2.2.2.2
      (.ok "a.md" "a.md" "x" 1) [] rfl (by decide)).1
  · have h := (C5_fallback "s" "zzz" "/t" [.ok "default.md" "default.md" "x" 1]
      (by decide)).2.1
    rw [h]
    decide

/-! ### Ordering facts for the two sorts -/

theorem keyLe_total (a b : Bool × String) : keyLe a b ∨ keyLe b a := by
  rcases a with ⟨ab, as⟩
  rcases b with ⟨bb, bs⟩
  cases ab <;> cases bb
  · rcases le_total as bs with h | h
    · exact Or.inl (Or.inr ⟨rfl, h⟩)
    · exact Or.inr (Or.inr ⟨rfl, h⟩)
  · exact Or.inl (Or.inl ⟨rfl, rfl⟩)
  · exact Or.inr (Or.inl ⟨rfl, rfl⟩)
  · rcases le_total as bs with h | h
    · exact Or.inl (Or.inr ⟨rfl, h⟩)
    · exact Or.inr (Or.inr ⟨rfl, h⟩)

theorem keyLe_trans {a b c : Bool × String} (h1 : keyLe a b) (h2 : keyLe b c) :
    keyLe a c := by
  rcases h1 with ⟨ha, hb⟩ | ⟨hab, hle⟩
  · rcases h2 with ⟨hb', hc⟩ | ⟨hbc, hle'⟩
    · rw [hb] at hb'
      exact absurd hb' (by simp)
    · exact Or.inl ⟨ha, hbc ▸ hb⟩
  · rcases h2 with ⟨hb', hc⟩ | ⟨hbc, hle'⟩
    · exact Or.inl ⟨hab.trans hb', hc⟩
    · exact Or.inr ⟨hab.trans hbc, hle.trans hle'⟩

instance (ctl : String) : IsTotal MatchCandidate (rankLe ctl) :=
  ⟨fun a b => keyLe_total (sortKey ctl a) (sortKey ctl b)⟩

instance (ctl : String) : IsTrans MatchCandidate (rankLe ctl) :=
  ⟨fun _ _ _ h1 h2 => keyLe_trans h1 h2⟩

instance : IsTotal TemplateEntry nameLe :=
  ⟨fun a b => le_total a.name b.name⟩

instance : IsTrans TemplateEntry nameLe :=
  ⟨fun _ _ _ h1 h2 => le_trans h1 h2⟩

/-! ### Claim C4 -/

theorem template_mem_tryPatterns {ct : String} {t : TemplateEntry}
    {c : MatchCandidate} :
    ∀ {ps : List String}, tryPatterns ct t ps = some c → c.template = t
  | [], h => Option.noConfusion h
  | p :: ps, h => by
    by_cases hm : pyIn p (pyLower t.name) = true
    · rw [tryPatterns, if_pos hm] at h
      cases Option.some.inj h
      rfl
    · rw [tryPatterns, if_neg hm] at h
      exact template_mem_tryPatterns h

theorem template_mem_primaryPass {pats : List String} {ct : String}
    {c : MatchCandidate} :
    ∀ {l : List TemplateEntry}, c ∈ primaryPass pats ct l → c.template ∈ l
  | [], h => absurd h (List.not_mem_nil c)
  | t :: rest, h => by
    rw [primaryPass] at h
    cases htp : tryPatterns ct t pats with
    | none =>
      rw [htp] at h
      exact List.mem_cons_of_mem _ (template_mem_primaryPass h)
    | some c' =>
      rw [htp] at h
      rcases List.mem_cons.mp h with h' | h'
      · subst h'
        rw [template_mem_tryPatterns htp]
        exact List.mem_cons_self _ _
      · exact List.mem_cons_of_mem _ (template_mem_primaryPass h')

theorem template_mem_fallbackPass {ct : String} {c : MatchCandidate} :
    ∀ {l : List TemplateEntry}, c ∈ fallbackPass ct l → c.template ∈ l
  | [], h => absurd h (List.not_mem_nil c)
  | t :: rest, h => by
    rw [fallbackPass] at h
    by_cases hg : genericNames.any (fun g => pyIn g (pyLower t.name)) = true
    · rw [if_pos hg] at h
      rcases List.mem_cons.mp h with h' | h'
      · subst h'
        exact List.mem_cons_self _ _
      · exact List.mem_cons_of_mem _ (template_mem_fallbackPass h')
    · rw [if_neg hg] at h
      exact List.mem_cons_of_mem _ (template_mem_fallbackPass h)

theorem template_mem_matchingFor {ct : String} {c : MatchCandidate}
    {l : List TemplateEntry} (h : c ∈ matchingFor ct l) : c.template ∈ l := by
  rw [matchingFor] at h
  by_cases he : (primaryPass (patternsFor (pyLower ct)) ct l).isEmpty = true
  · rw [if_pos he] at h
    exact template_mem_fallbackPass h
  · rw [if_neg he] at h
    exact template_mem_primaryPass h

/-- Reduction of `suggest_template` on a non-empty catalog with a non-empty
matching list. -/
theorem suggest_eq_ranked (cs ct d : String) (t0 : TemplateEntry)
    (ts : List TemplateEntry) {m : MatchCandidate} {ms : List MatchCandidate}
    (hm : matchingFor ct (t0 :: ts) = m :: ms) :
    suggest_template cs ct (.ok (t0 :: ts) d) =
      rankedPayload cs ct (t0 :: ts).length
        (List.insertionSort (rankLe (pyLower ct)) (m :: ms)) := by
  simp only [suggest_template, hm]
  rfl

/-- C4: the non-empty matching list is sorted by the key (change type not
contained in the lower-cased name, then name) ascending; the payload is
built from that sorted list, `suggested_template` is its first element,
`all_matches` renders exactly its elements, and all of them come from the
catalog. -/
theorem C4_ranking (cs ct d : String) (templates : List TemplateEntry)
    (hne : templates ≠ []) (hm : matchingFor ct templates ≠ []) :
    suggest_template cs ct (.ok templates d) =
      rankedPayload cs ct templates.length
        (List.insertionSort (rankLe (pyLower ct)) (matchingFor ct templates)) ∧
    (List.insertionSort (rankLe (pyLower ct)) (matchingFor ct templates)).Sorted
      (rankLe (pyLower ct)) ∧
    List.Perm (List.insertionSort (rankLe (pyLower ct)) (matchingFor ct templates))
      (matchingFor ct templates) ∧
    (∀ c ∈ List.insertionSort (rankLe (pyLower ct)) (matchingFor ct templates),
      c.template ∈ templates) ∧
    (∀ best rest,
      List.insertionSort (rankLe (pyLower ct)) (matchingFor ct templates) =
        best :: rest →
      getKey (suggest_template cs ct (.ok templates d)) "suggested_template" =
        some best.toJVal ∧
      getKey (suggest_template cs ct (.ok templates d)) "all_matches" =
        some (.arr ((best :: rest).map MatchCandidate.toJVal))) := by
  obtain ⟨t0, ts, rfl⟩ := List.exists_cons_of_ne_nil hne
  obtain ⟨m, ms, hmm⟩ := List.exists_cons_of_ne_nil hm
  have hsugg : suggest_template cs ct (.ok (t0 :: ts) d) =
      rankedPayload cs ct (t0 :: ts).length
        (List.insertionSort (rankLe (pyLower ct)) (matchingFor ct (t0 :: ts))) := by
    rw [hmm]
    exact suggest_eq_ranked cs ct d t0 ts hmm
  refine ⟨hsugg, List.sorted_insertionSort _ _, List.perm_insertionSort _ _, ?_, ?_⟩
  · intro c hc
    exact template_mem_matchingFor
      ((List.perm_insertionSort (rankLe (pyLower ct)) _).subset hc)
  · intro best rest hsort
    rw [hsugg, hsort]
    exact ⟨rfl, rfl⟩

/-- Witness for C4 at a concrete catalog: for change type `"bug"` the
matches `fix_things.md` (pattern `fix`) and `bugfix.md` (pattern `bug`) are
ranked with `bugfix.md` first, because its name contains `"bug"`. -/
theorem C4_ranking_witness :
    suggest_template "s" "bug"
        (.ok [.ok "fix_things.md" "fix_things.md" "x" 1,
              .ok "bugfix.md" "bugfix.md" "y" 2] "/t") =
      rankedPayload "s" "bug" 2
        (List.insertionSort (rankLe (pyLower "bug"))
          (matchingFor "bug"
            [.ok "fix_things.md" "fix_things.md" "x" 1,
             .ok "bugfix.md" "bugfix.md" "y" 2])) :=
  (C4_ranking "s" "bug" "/t"
    [.ok "fix_things.md" "fix_things.md" "x" 1,
     .ok "bugfix.md" "bugfix.md" "y" 2]
    (by decide) (by decide)).1

/-! ### Claim C7 -/

/-- Strict name order on catalog entries. -/
def nameLt (a b : TemplateEntry) : Prop :=
  a.name < b.name

instance : IsAntisymm TemplateEntry nameLt :=
  ⟨fun _ _ h1 h2 => absurd h2 (lt_asymm h1)⟩

theorem readEntry_name (e : FileEntry) : (readEntry e).name = e.name := by
  cases h : e.content <;> simp [readEntry, h, TemplateEntry.name]

/-- The names of the pre-sort catalog are the names of the regular files,
in order. -/
theorem rawTemplates_names (entries : List FileEntry) :
    (rawTemplates entries).map TemplateEntry.name =
      (entries.filter (fun e => e.isFile)).map FileEntry.name := by
  rw [rawTemplates_eq, List.map_map]
  exact List.map_congr_left (fun e _ => readEntry_name e)

/-- A sorted run of entries with pairwise-distinct names is strictly
sorted by name. -/
theorem sorted_name_strict {l : List TemplateEntry}
    (hs : l.Sorted nameLe) (hnd : (l.map TemplateEntry.name).Nodup) :
    l.Sorted nameLt := by
  have hne : l.Pairwise (fun a b => a.name ≠ b.name) := List.pairwise_map.mp hnd
  exact (hs.and hne).imp (fun h => lt_of_le_of_ne h.1 h.2)

/-- C7: over any two enumeration orders of the same directory contents
(with distinct file names), `get_pr_templates` returns the same payload,
and the catalog is sorted by name ascending. -/
theorem C7_catalog_order (d : String) (e1 e2 : List FileEntry)
    (hperm : List.Perm e1 e2) (hnd : (e1.map FileEntry.name).Nodup) :
    (sortedTemplates e1).Sorted nameLe ∧
    sortedTemplates e1 = sortedTemplates e2 ∧
    get_pr_templates_payload d (.dir e1) = get_pr_templates_payload d (.dir e2) := by
  have hs1 : (sortedTemplates e1).Sorted nameLe := List.sorted_insertionSort _ _
  have hs2 : (sortedTemplates e2).Sorted nameLe := List.sorted_insertionSort _ _
  have hraw : List.Perm (rawTemplates e1) (rawTemplates e2) := by
    rw [rawTemplates_eq, rawTemplates_eq]
    exact (hperm.filter _).map readEntry
  have hpr : List.Perm (sortedTemplates e1) (sortedTemplates e2) :=
    ((List.perm_insertionSort nameLe (rawTemplates e1)).trans hraw).trans
      (List.perm_insertionSort nameLe (rawTemplates e2)).symm
  have hnd1 : ((sortedTemplates e1).map TemplateEntry.name).Nodup := by
    have hfil : ((e1.filter (fun e => e.isFile)).map FileEntry.name).Nodup :=
      hnd.sublist ((e1.filter_sublist (p := fun e => e.isFile)).map FileEntry.name)
    have hrawnd : ((rawTemplates e1).map TemplateEntry.name).Nodup := by
      rw [rawTemplates_names]
      exact hfil
    exact (((List.perm_insertionSort nameLe
      (rawTemplates e1)).map TemplateEntry.name).nodup_iff).mpr hrawnd
  have hnd2 : ((sortedTemplates e2).map TemplateEntry.name).Nodup :=
    ((hpr.map TemplateEntry.name).nodup_iff).mp hnd1
  have heq : sortedTemplates e1 = sortedTemplates e2 :=
    List.eq_of_perm_of_sorted hpr (sorted_name_strict hs1 hnd1)
      (sorted_name_strict hs2 hnd2)
  refine ⟨hs1, heq, ?_⟩
  simp only [get_pr_templates_payload, get_pr_templates, catalogPayload, heq]

/-- Witness for C7: the two enumeration orders of a two-file directory
produce the identical sorted payload. -/
theorem C7_catalog_order_witness :
    get_pr_templates_payload "/t"
        (.dir [⟨"b.md", true, .ok "1"⟩, ⟨"a.md", true, .ok "2"⟩]) =
      get_pr_templates_payload "/t"
        (.dir [⟨"a.md", true, .ok "2"⟩, ⟨"b.md", true, .ok "1"⟩]) :=
  (C7_catalog_order "/t"
    [⟨"b.md", true, .ok "1"⟩, ⟨"a.md", true, .ok "2"⟩]
    [⟨"a.md", true, .ok "2"⟩, ⟨"b.md", true, .ok "1"⟩]
    (List.Perm.swap _ _ _) (by decide)).2.2

/-! ### Claim C10 -/

/-- The observable signature of a match candidate: template name, template
path, and match reason.  Selection and ranking read nothing else. -/
def candSig (c : MatchCandidate) : String × String × String :=
  (c.template.name, c.template.path, c.match_reason)

/-- The ranking order expressed on signatures alone. -/
def sigLe (ctl : String) (a b : String × String × String) : Prop :=
  keyLe (!(pyIn ctl (pyLower a.1)), a.1) (!(pyIn ctl (pyLower b.1)), b.1)

instance (ctl : String) : DecidableRel (sigLe ctl) :=
  fun a b =>
    inferInstanceAs
      (Decidable (keyLe (!(pyIn ctl (pyLower a.1)), a.1) (!(pyIn ctl (pyLower b.1)), b.1)))

def sigToJVal (s : String × String × String) : JVal :=
  .obj [("name", .str s.1), ("path", .str s.2.1), ("match_reason", .str s.2.2)]

theorem tryPatterns_congr {t u : TemplateEntry} (ct : String)
    (hn : t.name = u.name) (hp : t.path = u.path) :
    ∀ ps : List String,
      (tryPatterns ct t ps).map candSig = (tryPatterns ct u ps).map candSig
  | [] => rfl
  | p :: ps => by
    simp only [tryPatterns, hn]
    by_cases h : pyIn p (pyLower u.name) = true
    · rw [if_pos h, if_pos h]
      simp only [Option.map_some', candSig, hn, hp]
    · rw [if_neg h, if_neg h]
      exact tryPatterns_congr ct hn hp ps

theorem primaryPass_congr (pats : List String) (ct : String) :
    ∀ {l1 l2 : List TemplateEntry},
      l1.map TemplateEntry.name = l2.map TemplateEntry.name →
      l1.map TemplateEntry.path = l2.map TemplateEntry.path →
      (primaryPass pats ct l1).map candSig = (primaryPass pats ct l2).map candSig
  | [], [], _, _ => rfl
  | [], _ :: _, hn, _ => by simp at hn
  | _ :: _, [], hn, _ => by simp at hn
  | t :: l1, u :: l2, hn, hp => by
    simp only [List.map_cons, List.cons.injEq] at hn hp
    have htry := tryPatterns_congr ct hn.1 hp.1 pats
    have ih := primaryPass_congr pats ct hn.2 hp.2
    simp only [primaryPass]
    cases h1 : tryPatterns ct t pats with
    | none =>
      cases h2 : tryPatterns ct u pats with
      | none => exact ih
      | some c2 =>
        rw [h1, h2] at htry
        exact absurd htry (by simp)
    | some c1 =>
      cases h2 : tryPatterns ct u pats with
      | none =>
        rw [h1, h2] at htry
        exact absurd htry (by simp)
      | some c2 =>
        rw [h1, h2] at htry
        simp only [Option.map_some', Option.some.injEq] at htry
        simp only [List.map_cons, htry, ih]

theorem fallbackPass_congr (ct : String) :
    ∀ {l1 l2 : List TemplateEntry},
      l1.map TemplateEntry.name = l2.map TemplateEntry.name →
      l1.map TemplateEntry.path = l2.map TemplateEntry.path →
      (fallbackPass ct l1).map candSig = (fallbackPass ct l2).map candSig
  | [], [], _, _ => rfl
  | [], _ :: _, hn, _ => by simp at hn
  | _ :: _, [], hn, _ => by simp at hn
  | t :: l1, u :: l2, hn, hp => by
    simp only [List.map_cons, List.cons.injEq] at hn hp
    have ih := fallbackPass_congr ct hn.2 hp.2
    simp only [fallbackPass, hn.1]
    by_cases h : genericNames.any (fun g => pyIn g (pyLower u.name)) = true
    · rw [if_pos h, if_pos h]
      simp only [List.map_cons, ih, candSig, hn.1, hp.1]
    · rw [if_neg h, if_neg h]
      exact ih

theorem matchingFor_congr (ct : String) {l1 l2 : List TemplateEntry}
    (hn : l1.map TemplateEntry.name = l2.map TemplateEntry.name)
    (hp : l1.map TemplateEntry.path = l2.map TemplateEntry.path) :
    (matchingFor ct l1).map candSig = (matchingFor ct l2).map candSig := by
  have hprim := primaryPass_congr (patternsFor (pyLower ct)) ct hn hp
  have hlen : (primaryPass (patternsFor (pyLower ct)) ct l1).length =
      (primaryPass (patternsFor (pyLower ct)) ct l2).length := by
    have := congrArg List.length hprim
    simpa using this
  rw [matchingFor, matchingFor]
  by_cases h1 : (primaryPass (patternsFor (pyLower ct)) ct l1).isEmpty = true
  · have h2 : (primaryPass (patternsFor (pyLower ct)) ct l2).isEmpty = true := by
      rw [List.isEmpty_iff_length_eq_zero] at h1 ⊢
      rw [← hlen]
      exact h1
    rw [if_pos h1, if_pos h2]
    exact fallbackPass_congr ct hn hp
  · have h2 : ¬(primaryPass (patternsFor (pyLower ct)) ct l2).isEmpty = true := by
      rw [List.isEmpty_iff_length_eq_zero] at h1 ⊢
      rw [← hlen]
      exact h1
    rw [if_neg h1, if_neg h2]
    exact hprim

theorem sortRank_congr (ctl : String) {m1 m2 : List MatchCandidate}
    (h : m1.map candSig = m2.map candSig) :
    (List.insertionSort (rankLe ctl) m1).map candSig =
      (List.insertionSort (rankLe ctl) m2).map candSig := by
  rw [List.map_insertionSort (rankLe ctl) (sigLe ctl) candSig m1
      (fun _ _ _ _ => Iff.rfl),
    List.map_insertionSort (rankLe ctl) (sigLe ctl) candSig m2
      (fun _ _ _ _ => Iff.rfl), h]

/-- C10: with the same change type and two catalogs agreeing on template
names and paths — but possibly differing in contents, sizes, read-error
status and the summary text — `suggest_template` produces the same
`suggested_template` object and the same `all_matches` array: selection and
ranking read only names (plus paths and the change type for rendering). -/
theorem C10_content_independence (cs1 cs2 ct d1 d2 : String)
    (cat1 cat2 : List TemplateEntry)
    (hn : cat1.map TemplateEntry.name = cat2.map TemplateEntry.name)
    (hp : cat1.map TemplateEntry.path = cat2.map TemplateEntry.path)
    (hne : cat1 ≠ []) :
    getKey (suggest_template cs1 ct (.ok cat1 d1)) "suggested_template" =
      getKey (suggest_template cs2 ct (.ok cat2 d2)) "suggested_template" ∧
    getKey (suggest_template cs1 ct (.ok cat1 d1)) "all_matches" =
      getKey (suggest_template cs2 ct (.ok cat2 d2)) "all_matches" := by
  obtain ⟨t1, r1, rfl⟩ := List.exists_cons_of_ne_nil hne
  have hne2 : cat2 ≠ [] := by
    intro h
    subst h
    simp at hn
  obtain ⟨t2, r2, rfl⟩ := List.exists_cons_of_ne_nil hne2
  have hmS := matchingFor_congr ct hn hp
  have hn' := hn
  have hp' := hp
  simp only [List.map_cons, List.cons.injEq] at hn' hp'
  cases hm1 : matchingFor ct (t1 :: r1) with
  | nil =>
    have hm2 : matchingFor ct (t2 :: r2) = [] := by
      rw [hm1] at hmS
      cases h2 : matchingFor ct (t2 :: r2) with
      | nil => rfl
      | cons a l =>
        rw [h2] at hmS
        simp at hmS
    rw [suggest_eq_noMatch cs1 ct d1 t1 r1 hm1,
      suggest_eq_noMatch cs2 ct d2 t2 r2 hm2]
    unfold noMatchPayload
    rw [hn'.1, hp'.1]
    exact ⟨rfl, rfl⟩
  | cons m1 ms1 =>
    have hm2ne : matchingFor ct (t2 :: r2) ≠ [] := by
      intro h
      rw [hm1, h] at hmS
      simp at hmS
    obtain ⟨m2, ms2, hm2⟩ := List.exists_cons_of_ne_nil hm2ne
    rw [suggest_eq_ranked cs1 ct d1 t1 r1 hm1,
      suggest_eq_ranked cs2 ct d2 t2 r2 hm2]
    have hsorted :
        (List.insertionSort (rankLe (pyLower ct)) (m1 :: ms1)).map candSig =
          (List.insertionSort (rankLe (pyLower ct)) (m2 :: ms2)).map candSig := by
      apply sortRank_congr
      rw [← hm1, ← hm2]
      exact hmS
    have hnn1 : List.insertionSort (rankLe (pyLower ct)) (m1 :: ms1) ≠ [] := by
      intro h
      have hlen := List.length_insertionSort (rankLe (pyLower ct)) (m1 :: ms1)
      rw [h] at hlen
      exact Nat.succ_ne_zero ms1.length hlen.symm
    have hnn2 : List.insertionSort (rankLe (pyLower ct)) (m2 :: ms2) ≠ [] := by
      intro h
      have hlen := List.length_insertionSort (rankLe (pyLower ct)) (m2 :: ms2)
      rw [h] at hlen
      exact Nat.succ_ne_zero ms2.length hlen.symm
    cases hs1 : List.insertionSort (rankLe (pyLower ct)) (m1 :: ms1) with
    | nil => exact absurd hs1 hnn1
    | cons b1 rest1 =>
      cases hs2 : List.insertionSort (rankLe (pyLower ct)) (m2 :: ms2) with
      | nil => exact absurd hs2 hnn2
      | cons b2 rest2 =>
        rw [hs1, hs2] at hsorted
        simp only [List.map_cons, List.cons.injEq] at hsorted
        have hmap : (b1 :: rest1).map MatchCandidate.toJVal =
            (b2 :: rest2).map MatchCandidate.toJVal := by
          have h' : (b1 :: rest1).map candSig = (b2 :: rest2).map candSig := by
            simp only [List.map_cons, hsorted.1, hsorted.2]
          calc (b1 :: rest1).map MatchCandidate.toJVal
              = ((b1 :: rest1).map candSig).map sigToJVal := by
                rw [List.map_map]
                exact List.map_congr_left (fun c _ => rfl)
            _ = ((b2 :: rest2).map candSig).map sigToJVal := by rw [h']
            _ = (b2 :: rest2).map MatchCandidate.toJVal := by
                rw [List.map_map]
                exact (List.map_congr_left (fun c _ => rfl)).symm
        constructor
        · show some b1.toJVal = some b2.toJVal
          have : b1.toJVal = sigToJVal (candSig b1) := rfl
          rw [this, hsorted.1]
          rfl
        · show some (JVal.arr ((b1 :: rest1).map MatchCandidate.toJVal)) =
              some (JVal.arr ((b2 :: rest2).map MatchCandidate.toJVal))
          rw [hmap]

/-- Witness for C10 at concrete inputs: two catalogs whose single entries
share the name `bugfix.md` but differ entirely in content (one is even the
read-error variant), queried with different summaries and directories,
yield identical suggestion and match list. -/
theorem C10_content_independence_witness :
    getKey (suggest_template "x" "bug"
        (.ok [.ok "bugfix.md" "bugfix.md" "content A" 9] "/t1"))
      "suggested_template" =
      getKey (suggest_template "y" "bug"
        (.ok [.err "bugfix.md" "bugfix.md" "Failed to read file: nope"] "/t2"))
        "suggested_template" ∧
    getKey (suggest_template "x" "bug"
        (.ok [.ok "bugfix.md" "bugfix.md" "content A" 9] "/t1"))
      "all_matches" =
      getKey (suggest_template "y" "bug"
        (.ok [.err "bugfix.md" "bugfix.md" "Failed to read file: nope"] "/t2"))
        "all_matches" :=
  C10_content_independence "x" "y" "bug" "/t1" "/t2"
    [.ok "bugfix.md" "bugfix.md" "content A" 9]
    [.err "bugfix.md" "bugfix.md" "Failed to read file: nope"]
    (by decide) (by decide) (by decide)

end PRAgent
